import Mathlib

/-!
Verification of the client-side data-synchronization layer of a blog
reading/authoring interface (list query, detail query, create mutation).

The data model and the API / form functions are embedded from the
TypeScript source (`src/types/blog.ts`, `src/App.tsx`, the create-form
component).  The query-cache semantics (per-key state machine, request
deduplication, invalidation) are provided by a library whose code is not
part of the repository; those parts are modelled from the specification
and are marked `Modelled from the spec:` below.
-/

namespace BlogApp

/-- The `Blog` record from `src/types/blog.ts`. -/
structure Blog where
  id : Int
  title : String
  category : List String
  description : String
  date : String
  coverImage : String
  content : String
deriving Repr, DecidableEq

/-- The create-form values (`z.infer<typeof formSchema>` in the
create-form component): title, cover-image URL, a single comma-separated
categories string, and a description text. -/
structure FormValues where
  title : String
  coverImage : String
  category : String
  description : String
deriving Repr, DecidableEq

/-- The JSON body transmitted by `createBlog` in `src/App.tsx`:
the form fields spread in, with `category` overwritten by the split
list, plus `date` and `content` added. -/
structure BlogPayload where
  title : String
  category : List String
  description : String
  date : String
  coverImage : String
  content : String
deriving Repr, DecidableEq

/-- An HTTP response, already decoded: its status code and its JSON body. -/
structure HttpResponse (α : Type) where
  status : Nat
  body : α
deriving Repr, DecidableEq

/-- JavaScript `Response.ok`: true exactly when the status is in 200..299. -/
def resOk (status : Nat) : Bool := decide (200 ≤ status) && decide (status ≤ 299)

/-- `fetchBlogs` from `src/App.tsx`: on a non-ok response it throws
`Error("Failed to fetch blogs")`, otherwise it returns the decoded body. -/
def fetchBlogs (resp : HttpResponse (List Blog)) : Except String (List Blog) :=
  if resOk resp.status then .ok resp.body else .error "Failed to fetch blogs"

/-- `fetchBlogById` from `src/App.tsx`: on a non-ok response it throws
`Error("Failed to fetch blog post")`, otherwise it returns the decoded body. -/
def fetchBlogById (resp : HttpResponse Blog) : Except String Blog :=
  if resOk resp.status then .ok resp.body else .error "Failed to fetch blog post"

/-- JavaScript `String.split(",")` over the character list: splitting
the empty string gives `[""]`, and consecutive commas give empty pieces,
as in JavaScript. -/
def splitCommaChars : List Char → List (List Char)
  | [] => [[]]
  | c :: rest =>
      let r := splitCommaChars rest
      if c = ',' then [] :: r
      else
        match r with
        | [] => [[c]]
        | h :: t => (c :: h) :: t

/-- JavaScript `String.split(",")`. -/
def splitComma (s : String) : List String :=
  (splitCommaChars s.data).map List.asString

/-- JavaScript `String.trim()`: remove leading and trailing whitespace. -/
def jsTrim (s : String) : String :=
  (((s.data.dropWhile Char.isWhitespace).reverse.dropWhile Char.isWhitespace).reverse).asString

/-- The payload construction inside `createBlog` in `src/App.tsx`:
spread of the form values, with the comma-separated `category` string
converted to an array (`split(",")` then `trim` each piece), `date` set
to the current time's ISO-8601 string (threaded here as `nowISO`), and
`content` set to the description. -/
def createBlogPayload (newBlog : FormValues) (nowISO : String) : BlogPayload :=
  { title := newBlog.title
    coverImage := newBlog.coverImage
    description := newBlog.description
    category := (splitComma newBlog.category).map jsTrim
    date := nowISO
    content := newBlog.description }

/-- The response handling of `createBlog` in `src/App.tsx`: on a non-ok
response it throws `Error("Failed to create blog")`. -/
def createBlogResult (resp : HttpResponse Blog) : Except String Blog :=
  if resOk resp.status then .ok resp.body else .error "Failed to create blog"

/-- Per-key query state, as exposed to the view layer:
idle, loading, success with data, or error with a message. -/
inductive QueryState (α : Type) where
  | idle
  | loading
  | success (data : α)
  | failed (msg : String)
deriving Repr, DecidableEq

/-- Modelled from the spec: starting (or re-starting) a fetch for a key.
If a request is already in flight for the key (`loading`), no new
request is issued and the caller shares the in-flight one; otherwise the
key moves to `loading` and exactly one request is issued.  The returned
Bool says whether a network request was issued. -/
def fetchStep {α : Type} : QueryState α → QueryState α × Bool
  | .loading => (.loading, false)
  | _ => (.loading, true)

/-- Modelled from the spec: completion of the in-flight request for a
key: `loading` resolves to `success` or `failed` according to the
result; a completion arriving for a key with no in-flight request is
discarded.  Completion never issues a new request (no automatic retry). -/
def completeStep {α : Type} (q : QueryState α) (res : Except String α) : QueryState α :=
  match q with
  | .loading =>
      match res with
      | .ok a => .success a
      | .error e => .failed e
  | s => s

/-- JavaScript truthiness of a number: `!!n` is false exactly for 0
(and NaN, which is outside this model). -/
def jsTruthy (n : Int) : Bool := n != 0

/-- The `enabled` option of the detail query in `src/App.tsx`:
`!!selectedBlogId`, where `selectedBlogId : number | null`. -/
def detailEnabled (sel : Option Int) : Bool :=
  match sel with
  | none => false
  | some n => jsTruthy n

/-- A network request the client can issue. -/
inductive Request where
  | getBlogs
  | getBlog (id : Int)
  | postBlog (payload : BlogPayload)
deriving Repr, DecidableEq

/-- The cache of detail-query states, keyed by blog id
(query key `["blog", id]`). -/
def DetailCache := List (Int × QueryState Blog)

instance : DecidableEq DetailCache := by
  unfold DetailCache
  infer_instance

/-- Look up the query state for a detail key; a key never accessed is idle. -/
def lookupDetail (c : DetailCache) (id : Int) : QueryState Blog :=
  match c.find? (fun p => p.1 == id) with
  | some p => p.2
  | none => .idle

/-- Write the query state for a detail key. -/
def setDetail (c : DetailCache) (id : Int) (q : QueryState Blog) : DetailCache :=
  match c with
  | [] => [(id, q)]
  | p :: rest => if p.1 == id then (id, q) :: rest else p :: setDetail rest id q

/-- The client-side state of `BlogApp` in `src/App.tsx`: the list-query
state (key `["blogs"]`), the detail-query cache, the selected blog id
(`useState<number | null>`), and the creating-view flag. -/
structure AppState where
  blogsQuery : QueryState (List Blog)
  detailCache : DetailCache
  selectedBlogId : Option Int
  isCreating : Bool
deriving DecidableEq

/-- The list query (`useQuery` with key `["blogs"]`): always enabled;
fetching follows the per-key fetch step. Returns the new state and the
requests issued. -/
def listFetch (s : AppState) : AppState × List Request :=
  let fr := fetchStep s.blogsQuery
  ({ s with blogsQuery := fr.1 }, if fr.2 then [.getBlogs] else [])

/-- The detail query (`useQuery` with key `["blog", selectedBlogId]`,
`enabled: !!selectedBlogId`): runs only when the guard is truthy.
Returns the new state and the requests issued. -/
def detailFetch (s : AppState) : AppState × List Request :=
  match s.selectedBlogId with
  | none => (s, [])
  | some id =>
      if jsTruthy id then
        let fr := fetchStep (lookupDetail s.detailCache id)
        ({ s with detailCache := setDetail s.detailCache id fr.1 },
          if fr.2 then [.getBlog id] else [])
      else (s, [])

/-- Completion of the list fetch: resolves the `["blogs"]` key.
No request is issued on completion (no automatic retry). -/
def listComplete (s : AppState) (res : Except String (List Blog)) :
    AppState × List Request :=
  ({ s with blogsQuery := completeStep s.blogsQuery res }, [])

/-- Completion of a detail fetch: resolves the `["blog", id]` key.
No request is issued on completion (no automatic retry). -/
def detailComplete (s : AppState) (id : Int) (res : Except String Blog) :
    AppState × List Request :=
  ({ s with detailCache :=
      setDetail s.detailCache id (completeStep (lookupDetail s.detailCache id) res) }, [])

/-- `handleCreateSubmit` → `createMutation.mutate` in `src/App.tsx`:
the mutation runs `createBlog`, which builds the payload and issues the
POST. -/
def createSubmit (v : FormValues) (nowISO : String) : Request :=
  .postBlog (createBlogPayload v nowISO)

/-- The settled create mutation of `src/App.tsx` (lines 82-94).
On success: `invalidateQueries({queryKey: ["blogs"]})` — modelled from
the spec as returning the `["blogs"]` key to loading with a refetch —
and `setIsCreating(false)`.  On error: the state is left untouched and
`alert("Failed to create post. Please try again.")` reports the failure.
Returns the new state, the requests issued, and the alert message if any. -/
def createSettled (s : AppState) (res : Except String Blog) :
    AppState × List Request × Option String :=
  match res with
  | .ok _ =>
      let fr := fetchStep s.blogsQuery
      ({ s with blogsQuery := fr.1, isCreating := false },
        if fr.2 then [.getBlogs] else [], none)
  | .error _ => (s, [], some "Failed to create post. Please try again.")

/-- `z.string().min(n)`: the string's length is at least `n`. -/
def zMin (n : Nat) (s : String) : Bool := decide (n ≤ s.length)

/-- The `formSchema` of the create form: title min 2, coverImage a valid
URL (the URL validator is library code, taken here as a parameter),
category min 2, description min 10. -/
def formValid (urlCheck : String → Bool) (v : FormValues) : Bool :=
  zMin 2 v.title && urlCheck v.coverImage && zMin 2 v.category && zMin 10 v.description

/-- The form's `defaultValues`: every field the empty string. -/
def defaultFormValues : FormValues :=
  { title := "", coverImage := "", category := "", description := "" }

/-- `CreateBlogForm.handleSubmit` behind the resolver gate.  Modelled
from the spec for the gate itself (validation failures block submission
and never reach the network layer — the form library's code is not in
the repository); on valid values the component's own `handleSubmit`
runs: `onSubmit(values)` (which issues the POST via the mutation) and
then `form.reset()` back to the default values, before the request
resolves.  Returns the form state after submission and the requests
issued. -/
def formSubmit (urlCheck : String → Bool) (v : FormValues) (nowISO : String) :
    FormValues × List Request :=
  if formValid urlCheck v then (defaultFormValues, [createSubmit v nowISO])
  else (v, [])

/-- A submission followed by the settling of the create request:
the form is reset at submit time, so its state is independent of the
later result `res`. -/
def submitAndSettle (urlCheck : String → Bool) (s : AppState) (v : FormValues)
    (nowISO : String) (res : Except String Blog) :
    AppState × FormValues × Option String :=
  let fs := formSubmit urlCheck v nowISO
  if fs.2 = [] then (s, fs.1, none)
  else
    let cs := createSettled s res
    (cs.1, fs.1, cs.2.2)

/-- The transitions allowed by the specification's per-key state machine:
`idle → loading → {success, failed}`, and from `success` or `failed`
back to `loading` on a new request. -/
def specArc {α : Type} : QueryState α → QueryState α → Bool
  | .idle, .loading => true
  | .loading, .success _ => true
  | .loading, .failed _ => true
  | .success _, .loading => true
  | .failed _, .loading => true
  | _, _ => false

/- Helper lemmas about the detail cache. -/

theorem lookupDetail_setDetail_self (c : DetailCache) (id : Int) (q : QueryState Blog) :
    lookupDetail (setDetail c id q) id = q := by
  induction c with
  | nil => simp [setDetail, lookupDetail, List.find?]
  | cons p rest ih =>
      by_cases h : p.1 = id
      · simp [setDetail, h, lookupDetail, List.find?]
      · have hb : (p.1 == id) = false := by simp [h]
        simp [setDetail, hb, lookupDetail, List.find?] at ih ⊢
        exact ih

theorem lookupDetail_setDetail_ne (c : DetailCache) (id j : Int) (q : QueryState Blog)
    (h : j ≠ id) : lookupDetail (setDetail c id q) j = lookupDetail c j := by
  induction c with
  | nil =>
      have hb : (id == j) = false := by simp [Ne.symm h]
      simp [setDetail, lookupDetail, List.find?, hb]
  | cons p rest ih =>
      by_cases hp : p.1 = id
      · have hb : (p.1 == id) = true := by simp [hp]
        have hj : (id == j) = false := by simp [Ne.symm h]
        have hpj : (p.1 == j) = false := by simp [hp, Ne.symm h]
        simp [setDetail, hb, lookupDetail, List.find?, hj, hpj]
      · have hb : (p.1 == id) = false := by simp [hp]
        by_cases hpj : p.1 = j
        · have hbj : (p.1 == j) = true := by simp [hpj]
          simp [setDetail, hb, lookupDetail, List.find?, hbj]
        · have hbj : (p.1 == j) = false := by simp [hpj]
          simp [setDetail, hb, lookupDetail, List.find?, hbj] at ih ⊢
          exact ih

theorem setDetail_idem (c : DetailCache) (id : Int) (q : QueryState Blog) :
    setDetail (setDetail c id q) id q = setDetail c id q := by
  induction c with
  | nil => simp [setDetail]
  | cons p rest ih =>
      by_cases h : p.1 = id
      · have hb : (p.1 == id) = true := by simp [h]
        simp [setDetail, hb]
      · have hb : (p.1 == id) = false := by simp [h]
        simp [setDetail, hb, ih]

theorem fetchStep_fst {α : Type} (q : QueryState α) : (fetchStep q).1 = .loading := by
  cases q <;> rfl

/-- C2: the create path transforms the comma-separated categories string
of every draft into a list of tags (split on commas, surrounding
whitespace removed from each tag) before transmission; in particular
`"Tech, Life"` becomes `["Tech", "Life"]`. -/
theorem create_splits_and_trims_categories (v : FormValues) (nowISO : String) :
    (createBlogPayload v nowISO).category
        = (splitComma v.category).map jsTrim ∧
    (createBlogPayload { v with category := "Tech, Life" } nowISO).category
        = ["Tech", "Life"] := by
  refine ⟨rfl, ?_⟩
  show (splitComma "Tech, Life").map jsTrim = ["Tech", "Life"]
  decide

/-- C6: the JSON body transmitted by the create operation has exactly
the fields title, category (the split string list), description, date
(the ISO-8601 timestamp taken at submit time, threaded as `nowISO`),
coverImage, and content, with content set equal to the draft's
description text. -/
theorem create_payload_shape (v : FormValues) (nowISO : String) :
    createBlogPayload v nowISO =
      { title := v.title
        category := (splitComma v.category).map jsTrim
        description := v.description
        date := nowISO
        coverImage := v.coverImage
        content := v.description } := rfl

/-- C9: the detail-fetch guard is JavaScript truthiness of the selected
identifier, not validity: a selected id of 0 disables the detail query
and issues no request, exactly like no selection at all. -/
theorem detail_guard_is_truthiness (bq : QueryState (List Blog)) (dc : DetailCache)
    (ic : Bool) :
    detailEnabled (some 0) = false ∧
    detailEnabled (some 0) = detailEnabled none ∧
    detailFetch ⟨bq, dc, some 0, ic⟩ = (⟨bq, dc, some 0, ic⟩, []) ∧
    detailFetch ⟨bq, dc, none, ic⟩ = (⟨bq, dc, none, ic⟩, []) := by
  refine ⟨rfl, rfl, ?_, rfl⟩
  simp [detailFetch, jsTruthy]

/-- C3: the detail fetch is issued only when a selected identifier
passes the guard; with an empty/unset selection no detail request is
ever issued. -/
theorem detail_fetch_only_when_selected (s : AppState) :
    (s.selectedBlogId = none → detailFetch s = (s, [])) ∧
    (∀ r ∈ (detailFetch s).2,
        ∃ id, s.selectedBlogId = some id ∧ jsTruthy id = true ∧ r = Request.getBlog id) := by
  obtain ⟨bq, dc, sel, ic⟩ := s
  cases sel with
  | none => exact ⟨fun _ => rfl, by intro r hr; simp [detailFetch] at hr⟩
  | some id =>
      refine ⟨fun h => by simp at h, ?_⟩
      intro r hr
      by_cases hid : jsTruthy id = true
      · refine ⟨id, rfl, hid, ?_⟩
        simp [detailFetch, hid] at hr
        rcases hr with ⟨-, hr⟩
        exact hr
      · have hid0 : jsTruthy id = false := by
          cases hj : jsTruthy id
          · rfl
          · exact absurd hj hid
        simp [detailFetch, hid0] at hr

/-- Witness for C3 at concrete states. -/
theorem detail_fetch_only_when_selected_witness :
    detailFetch ⟨QueryState.idle, [], none, false⟩
        = (⟨QueryState.idle, [], none, false⟩, []) ∧
    ∃ id, (some (5 : Int) = some id ∧ jsTruthy id = true ∧
        Request.getBlog 5 = Request.getBlog id) :=
  ⟨(detail_fetch_only_when_selected ⟨QueryState.idle, [], none, false⟩).1 rfl,
   (detail_fetch_only_when_selected ⟨QueryState.idle, [], some 5, false⟩).2
      (Request.getBlog 5) (by decide)⟩

/-- C5: a draft with an empty title fails the form schema, so submission
is blocked client-side and no network request is issued, for any
cover-image URL validator. -/
theorem empty_title_blocks_submission (urlCheck : String → Bool) (v : FormValues)
    (nowISO : String) (h : v.title = "") :
    formValid urlCheck v = false ∧ formSubmit urlCheck v nowISO = (v, []) := by
  have hz : zMin 2 v.title = false := by rw [h]; rfl
  have hv : formValid urlCheck v = false := by
    simp [formValid, hz]
  exact ⟨hv, by simp [formSubmit, hv]⟩

/-- A concrete draft whose title is empty. -/
def emptyTitleDraft : FormValues :=
  { title := ""
    coverImage := "http://example.com/a.png"
    category := "Tech"
    description := "0123456789" }

/-- Witness for C5: the concrete empty-titled draft is blocked. -/
theorem empty_title_blocks_submission_witness :
    formSubmit (fun _ => true) emptyTitleDraft "2026-01-01T00:00:00.000Z"
      = (emptyTitleDraft, []) :=
  (empty_title_blocks_submission (fun _ => true) emptyTitleDraft
      "2026-01-01T00:00:00.000Z" rfl).2

/-- C1: on a successful create the `["blogs"]` key is invalidated — it
returns to loading with a refetch, so the next read of the collection
reflects the refetched list — and the creating-view flag is cleared,
while the detail cache is untouched; on a failed create the entire prior
query state is left unchanged, no request is issued, and the failure is
reported to the user with a non-empty message. -/
theorem create_success_invalidates_failure_preserves (s : AppState) (b : Blog)
    (e : String) (bs : List Blog) :
    ((createSettled s (.ok b)).1.isCreating = false ∧
     (createSettled s (.ok b)).1.blogsQuery = .loading ∧
     (createSettled s (.ok b)).1.detailCache = s.detailCache ∧
     ((createSettled s (.ok b)).2.1 = [Request.getBlogs] ∨ s.blogsQuery = .loading) ∧
     (createSettled s (.ok b)).2.2 = none ∧
     (listComplete (createSettled s (.ok b)).1 (.ok bs)).1.blogsQuery = .success bs) ∧
    ((createSettled s (.error e)).1 = s ∧
     (createSettled s (.error e)).2.1 = [] ∧
     ∃ m, (createSettled s (.error e)).2.2 = some m ∧ m ≠ "") := by
  obtain ⟨bq, dc, sel, ic⟩ := s
  refine ⟨⟨?_, ?_, ?_, ?_, ?_, ?_⟩, rfl, rfl, ⟨_, rfl, by decide⟩⟩
  all_goals cases bq <;> simp [createSettled, fetchStep, listComplete, completeStep]

/-- C10: a submission that passes validation hands the values to the
submit callback (issuing the POST) and immediately resets every draft
field to the defaults, before the create request resolves; the pending
draft stays cleared whatever the result of the create, in particular
when it fails. -/
theorem form_resets_before_create_resolves (urlCheck : String → Bool) (s : AppState)
    (v : FormValues) (nowISO : String) (h : formValid urlCheck v = true) :
    (formSubmit urlCheck v nowISO).1 = defaultFormValues ∧
    (formSubmit urlCheck v nowISO).2 = [createSubmit v nowISO] ∧
    ∀ res : Except String Blog,
      (submitAndSettle urlCheck s v nowISO res).2.1 = defaultFormValues := by
  refine ⟨by simp [formSubmit, h], by simp [formSubmit, h], ?_⟩
  intro res
  simp [submitAndSettle, formSubmit, h]

/-- A concrete draft that passes every field check. -/
def validDraft : FormValues :=
  { title := "Hello world"
    coverImage := "http://example.com/a.png"
    category := "Tech, Life"
    description := "A long enough description." }

/-- The application state at start-up. -/
def initialAppState : AppState :=
  { blogsQuery := .idle
    detailCache := []
    selectedBlogId := none
    isCreating := false }

/-- Witness for C10: the concrete valid draft is cleared at submit time,
and is still cleared after the create settles with an error. -/
theorem form_resets_before_create_resolves_witness :
    (submitAndSettle (fun _ => true) initialAppState validDraft
        "2026-01-01T00:00:00.000Z" (Except.error "boom")).2.1 = defaultFormValues :=
  (form_resets_before_create_resolves (fun _ => true) initialAppState validDraft
      "2026-01-01T00:00:00.000Z" (by decide)).2.2 (Except.error "boom")

/-- C4: a list or detail fetch whose HTTP response has a non-2xx status
resolves its query to the error state carrying the thrown message, which
is non-empty; no request is issued by the completion (no automatic
retry), and the state under every other query key is unchanged. -/
theorem non2xx_fetch_fails_without_retry (s : AppState)
    (respL : HttpResponse (List Blog)) (respD : HttpResponse Blog) (id : Int)
    (hL : resOk respL.status = false) (hD : resOk respD.status = false)
    (hbq : s.blogsQuery = .loading)
    (hdq : lookupDetail s.detailCache id = .loading) :
    ((listComplete s (fetchBlogs respL)).1.blogsQuery = .failed "Failed to fetch blogs" ∧
     "Failed to fetch blogs" ≠ "" ∧
     (listComplete s (fetchBlogs respL)).2 = [] ∧
     (listComplete s (fetchBlogs respL)).1.detailCache = s.detailCache) ∧
    (lookupDetail (detailComplete s id (fetchBlogById respD)).1.detailCache id
        = .failed "Failed to fetch blog post" ∧
     "Failed to fetch blog post" ≠ "" ∧
     (detailComplete s id (fetchBlogById respD)).2 = [] ∧
     (detailComplete s id (fetchBlogById respD)).1.blogsQuery = s.blogsQuery ∧
     ∀ j, j ≠ id →
        lookupDetail (detailComplete s id (fetchBlogById respD)).1.detailCache j
          = lookupDetail s.detailCache j) := by
  have hfb : fetchBlogs respL = .error "Failed to fetch blogs" := by
    simp [fetchBlogs, hL]
  have hfd : fetchBlogById respD = .error "Failed to fetch blog post" := by
    simp [fetchBlogById, hD]
  refine ⟨⟨?_, by decide, rfl, rfl⟩, ?_, by decide, rfl, rfl, ?_⟩
  · simp [listComplete, hfb, hbq, completeStep]
  · simp [detailComplete, hfd, hdq, completeStep, lookupDetail_setDetail_self]
  · intro j hj
    simp [detailComplete, lookupDetail_setDetail_ne _ _ _ _ hj]

/-- A concrete Article. -/
def sampleBlog : Blog :=
  { id := 1
    title := "Hello"
    category := ["Tech"]
    description := "d"
    date := "2026-01-01T00:00:00.000Z"
    coverImage := "http://example.com/c.png"
    content := "d" }

/-- A state with the list query and the detail query for id 1 in flight. -/
def loadingAppState : AppState :=
  { blogsQuery := .loading
    detailCache := [(1, .loading)]
    selectedBlogId := some 1
    isCreating := false }

/-- Witness for C4: a 500 response fails both concrete fetches. -/
theorem non2xx_fetch_fails_without_retry_witness :
    (listComplete loadingAppState (fetchBlogs ⟨500, []⟩)).1.blogsQuery
        = .failed "Failed to fetch blogs" ∧
    lookupDetail (detailComplete loadingAppState 1
        (fetchBlogById ⟨500, sampleBlog⟩)).1.detailCache 1
        = .failed "Failed to fetch blog post" :=
  ⟨(non2xx_fetch_fails_without_retry loadingAppState ⟨500, []⟩ ⟨500, sampleBlog⟩ 1
      (by decide) (by decide) rfl (by decide)).1.1,
   (non2xx_fetch_fails_without_retry loadingAppState ⟨500, []⟩ ⟨500, sampleBlog⟩ 1
      (by decide) (by decide) rfl (by decide)).2.1⟩

theorem detailFetch_some (bq : QueryState (List Blog)) (dc : DetailCache) (ic : Bool)
    (id : Int) (hid : jsTruthy id = true) :
    detailFetch ⟨bq, dc, some id, ic⟩ =
      (⟨bq, setDetail dc id .loading, some id, ic⟩,
        if (fetchStep (lookupDetail dc id)).2 then [Request.getBlog id] else []) := by
  simp [detailFetch, hid, fetchStep_fst]

/-- C7: two concurrent fetches of one query key — the collection key, or
the detail key of a selected identifier that passes the guard — issue at
most one network request between them: the second call finds the key
loading, issues nothing and leaves the state unchanged, so both callers
share the single in-flight request and, after its completion, observe
the same resolved state of that key. -/
theorem concurrent_fetch_dedup (s : AppState) (id : Int)
    (hsel : s.selectedBlogId = some id) (hid : jsTruthy id = true) :
    ((listFetch (listFetch s).1).2 = [] ∧
     (listFetch (listFetch s).1).1 = (listFetch s).1 ∧
     ((listFetch s).2 ++ (listFetch (listFetch s).1).2).length ≤ 1 ∧
     ∀ res, (listComplete (listFetch (listFetch s).1).1 res).1.blogsQuery
        = completeStep QueryState.loading res) ∧
    ((detailFetch (detailFetch s).1).2 = [] ∧
     (detailFetch (detailFetch s).1).1 = (detailFetch s).1 ∧
     ((detailFetch s).2 ++ (detailFetch (detailFetch s).1).2).length ≤ 1 ∧
     ∀ res,
        lookupDetail (detailComplete (detailFetch (detailFetch s).1).1 id
          res).1.detailCache id = completeStep QueryState.loading res) := by
  obtain ⟨bq, dc, sel, ic⟩ := s
  simp only [AppState.mk.injEq] at hsel
  subst hsel
  constructor
  · cases bq <;>
      simp [listFetch, fetchStep, listComplete, completeStep]
  · have h1 := detailFetch_some bq dc ic id hid
    have h2 : detailFetch ⟨bq, setDetail dc id .loading, some id, ic⟩
        = (⟨bq, setDetail dc id .loading, some id, ic⟩, []) := by
      rw [detailFetch_some bq (setDetail dc id .loading) ic id hid,
          lookupDetail_setDetail_self, setDetail_idem]
      rfl
    refine ⟨?_, ?_, ?_, ?_⟩
    · rw [h1]; simp [h2]
    · rw [h1]; simp [h2]
    · rw [h1]
      simp only [h2, Prod.snd, List.append_nil]
      cases hc : (fetchStep (lookupDetail dc id)).2 <;> simp [hc]
    · intro res
      rw [h1]
      simp [h2, detailComplete, lookupDetail_setDetail_self]

/-- A concrete state with a truthy selected identifier. -/
def dedupState : AppState :=
  { blogsQuery := .idle
    detailCache := []
    selectedBlogId := some 5
    isCreating := false }

/-- Witness for C7: at the concrete state, the second of two concurrent
fetches issues no request, for the collection key and for detail key 5. -/
theorem concurrent_fetch_dedup_witness :
    (listFetch (listFetch dedupState).1).2 = [] ∧
    (detailFetch (detailFetch dedupState).1).2 = [] :=
  ⟨(concurrent_fetch_dedup dedupState 5 rfl (by decide)).1.1,
   (concurrent_fetch_dedup dedupState 5 rfl (by decide)).2.1⟩

theorem fetchStep_conforms {α : Type} (q : QueryState α) :
    (fetchStep q).1 = q ∨ specArc q (fetchStep q).1 = true := by
  cases q <;> simp [fetchStep, specArc]

theorem completeStep_conforms {α : Type} (q : QueryState α) (res : Except String α) :
    completeStep q res = q ∨ specArc q (completeStep q res) = true := by
  cases q <;> cases res <;> simp [completeStep, specArc]

/-- C8: every operation of the model moves each query key only along
the spec state machine — idle → loading → {success, failed}, with a new
request (manual refresh or invalidation) returning success or failed to
loading — or leaves the key unchanged; no other transition ever occurs,
for the raw per-key steps and for every application-level step (list
fetch, list completion, settled create, detail fetch, detail
completion). -/
theorem query_state_machine_conformance {α : Type} (q : QueryState α)
    (res : Except String α) (s : AppState) (id : Int)
    (rd : Except String Blog) (rl : Except String (List Blog))
    (rc : Except String Blog) :
    ((fetchStep q).1 = q ∨ specArc q (fetchStep q).1 = true) ∧
    (completeStep q res = q ∨ specArc q (completeStep q res) = true) ∧
    ((listFetch s).1.blogsQuery = s.blogsQuery ∨
        specArc s.blogsQuery (listFetch s).1.blogsQuery = true) ∧
    ((listComplete s rl).1.blogsQuery = s.blogsQuery ∨
        specArc s.blogsQuery (listComplete s rl).1.blogsQuery = true) ∧
    ((createSettled s rc).1.blogsQuery = s.blogsQuery ∨
        specArc s.blogsQuery (createSettled s rc).1.blogsQuery = true) ∧
    (∀ j, lookupDetail (detailFetch s).1.detailCache j = lookupDetail s.detailCache j ∨
        specArc (lookupDetail s.detailCache j)
          (lookupDetail (detailFetch s).1.detailCache j) = true) ∧
    (∀ j, lookupDetail (detailComplete s id rd).1.detailCache j
          = lookupDetail s.detailCache j ∨
        specArc (lookupDetail s.detailCache j)
          (lookupDetail (detailComplete s id rd).1.detailCache j) = true) := by
  obtain ⟨bq, dc, sel, ic⟩ := s
  refine ⟨fetchStep_conforms q, completeStep_conforms q res, ?_, ?_, ?_, ?_, ?_⟩
  · exact fetchStep_conforms bq
  · exact completeStep_conforms bq rl
  · cases rc with
    | ok b => exact fetchStep_conforms bq
    | error e => exact Or.inl rfl
  · intro j
    cases sel with
    | none => exact Or.inl rfl
    | some i =>
        by_cases hi : jsTruthy i = true
        · rw [detailFetch_some bq dc ic i hi]
          by_cases hj : j = i
          · subst hj
            rw [lookupDetail_setDetail_self]
            refine (fetchStep_conforms (lookupDetail dc j)).imp ?_ ?_
            · intro h; rwa [fetchStep_fst] at h
            · intro h; rwa [fetchStep_fst] at h
          · rw [lookupDetail_setDetail_ne dc i j _ hj]
            exact Or.inl rfl
        · have hi0 : jsTruthy i = false := by
            cases hv : jsTruthy i
            · rfl
            · exact absurd hv hi
          simp [detailFetch, hi0]
  · intro j
    by_cases hj : j = id
    · subst hj
      simp only [detailComplete, lookupDetail_setDetail_self]
      exact completeStep_conforms (lookupDetail dc j) rd
    · simp only [detailComplete]
      rw [lookupDetail_setDetail_ne dc id j _ hj]
      exact Or.inl rfl

end BlogApp
